import Mathlib

/-
  Verification development for the Ledgerwiseai repository.

  The repository is a set of interactive Nigerian business/tax advisory tools:
    advise.py, nigerian_advisor.py, analyst.py, nigerian_taxcalc.py,
    hi.py (sample-file generator) and legacy scripts under irrelevant/.

  Each tool composes a prompt, sends it to a remote structured-completion
  service, and substitutes a hard-coded fallback object when the remote call
  fails.  The remote call itself is external; it is modelled here as an
  explicit parameter of type Except String Schema (ok = validated object,
  error = any exception raised by the call, covering connectivity,
  authentication, quota and schema-validation failures).  Everything else
  (string matching, column resolution, fallback construction, loop input
  classification, prompt composition) is translated directly from the
  Python source.

  Python floats are modelled as rationals, Python strings as Lean strings.
  The string helpers below reimplement str.lower / str.strip / substring
  membership structurally so that the kernel can evaluate them; they agree
  with Python over the ASCII data handled by the tools.
-/

-- Models Python str.lower over ASCII characters.
def charLower (c : Char) : Char :=
  if 65 ≤ c.toNat && c.toNat ≤ 90 then Char.ofNat (c.toNat + 32) else c

def strLower (s : String) : String := String.mk (s.data.map charLower)

def isSpaceChar (c : Char) : Bool := c == ' ' || c == '\t' || c == '\n' || c == '\r'

-- Models Python str.strip (whitespace on both ends).
def strTrim (s : String) : String :=
  String.mk (((s.data.dropWhile isSpaceChar).reverse.dropWhile isSpaceChar).reverse)

-- Contiguous-sublist test: does needle occur inside hay.
def listHasRun (needle hay : List Char) : Bool :=
  match hay with
  | [] => needle.isEmpty
  | _ :: t => needle.isPrefixOf hay || listHasRun needle t

/-- Case-insensitive substring containment: models the Python idioms
    needle in hay.lower() and Series.str.contains(needle, case=False).
    The keyword lists in the source contain no regex metacharacters, so
    contains with its default regex mode is plain substring search. -/
def containsCI (hay needle : String) : Bool :=
  listHasRun (strLower needle).data (strLower hay).data

/-- Models the Python float format spec ,.2f as used in the composed
    prompts: the value rounded to two decimals, thousands separated by
    commas.  Tie-breaking differs from IEEE bankers rounding at exact
    half-cents, which the claims never exercise; only determinism and
    data-dependence of the composed text matter here. -/
def commaGroupAux : List Char → Nat → List Char
  | [], _ => []
  | c :: rest, i =>
    if i % 3 == 0 && i != 0 then c :: ',' :: commaGroupAux rest (i + 1)
    else c :: commaGroupAux rest (i + 1)

def commaGroup (s : String) : String :=
  String.mk ((commaGroupAux s.data.reverse 0).reverse)

def twoDigits (n : Nat) : String :=
  if n < 10 then "0" ++ Nat.repr n else Nat.repr n

def formatComma2 (q : ℚ) : String :=
  let n : Int := Int.ediv (200 * q.num + (q.den : Int)) (2 * (q.den : Int))
  let sign := if n < 0 then "-" else ""
  let m := n.natAbs
  sign ++ commaGroup (Nat.repr (m / 100)) ++ "." ++ twoDigits (m % 100)

-- The single-quote character, used by the taxcalc prompt template.
def singleQuote : String := String.mk [Char.ofNat 39]

/-- The advice_type Literal shared by advise.py, nigerian_advisor.py and
    irrelevant/chatbot.py. -/
inductive AdviceType
  | BUSINESS_STRATEGY
  | TAX_COMPLIANCE
  | IRRELEVANT
deriving DecidableEq

namespace Advise

/-- Pydantic model DetailedBusinessAdvice of advise.py. -/
structure DetailedBusinessAdvice where
  relevance_score : ℚ
  advice_type : AdviceType
  advice_title : String
  key_points_summary : String
  detailed_explanation : String
  actionable_steps : List String
  potential_risks_or_considerations : String
deriving DecidableEq

/-- advise.py line 86: full_query composed from the module-level system
    prompt and the user query.  The system prompt is passed explicitly;
    the source closes over the module constant SYSTEM_PROMPT. -/
def advise_full_query (system_prompt user_query : String) : String :=
  system_prompt ++ "\n\nUSER QUERY: " ++ user_query

/-- The fallback object built in the except branch of get_nigerian_advice
    (advise.py lines 103-111). -/
def adviseFallback : DetailedBusinessAdvice :=
  { relevance_score := 0
    advice_type := .IRRELEVANT
    advice_title := "System Error: API Failure"
    key_points_summary := "The advisory service is currently unavailable due to a connection or API error."
    detailed_explanation := "Please check your AWS configuration or model access."
    actionable_steps := []
    potential_risks_or_considerations := "N/A" }

/-- advise.py get_nigerian_advice: the whole body (client construction and
    the structured completion call) sits in one try block; any exception
    is caught and the fallback object returned.  The completion parameter
    stands for that whole remote interaction, applied to the composed
    full_query. -/
def get_nigerian_advice (system_prompt user_query : String)
    (completion : String → Except String DetailedBusinessAdvice) :
    DetailedBusinessAdvice :=
  match completion (advise_full_query system_prompt user_query) with
  | .ok advice_object => advice_object
  | .error _ => adviseFallback

/-- advise.py line 118. -/
def GREETINGS : List String :=
  ["hi", "hello", "hey", "good morning", "good afternoon", "good evening"]

/-- Outcome of the primary-prompt classification in the advise.py main
    loop (lines 129-146): exit keyword, empty input, greeting
    short-circuit, or a query forwarded to get_nigerian_advice. -/
inductive Phase1Action
  | exitLoop
  | askAgain
  | greetReply
  | callClient (q : String)
deriving DecidableEq

/-- advise.py main loop, phase 1: user_query = input.strip(); exit check,
    empty check, greeting check, otherwise the client is called. -/
def advisePhase1 (raw : String) : Phase1Action :=
  let user_query := strTrim raw
  if (["quit", "exit", "q"] : List String).contains (strLower user_query) then .exitLoop
  else if user_query == "" then .askAgain
  else if GREETINGS.contains (strLower user_query) then .greetReply
  else .callClient user_query

/-- Outcome of the continuation-prompt classification (advise.py lines
    175-184): empty input returns to the primary prompt, exit keywords
    terminate, anything else becomes the next query (which is then run
    through the phase-1 checks on the following iteration). -/
inductive ContAction
  | exitLoop
  | askAgain
  | nextQuery (q : String)
deriving DecidableEq

def adviseCont (raw : String) : ContAction :=
  let next_input := strTrim raw
  if next_input == "" then .askAgain
  else if (["no", "n", "quit", "exit", "q"] : List String).contains (strLower next_input) then .exitLoop
  else .nextQuery next_input

/-- The two stdin prompts of the advise.py main loop. -/
inductive AdvisePrompt
  | primary
  | continuation
deriving DecidableEq

/-- Effect of end-of-file on stdin at a given prompt.  cleanGoodbye:
    an EOFError handler prints a goodbye message and breaks the loop.
    caughtContinue: a generic handler catches the error and the loop
    proceeds.  uncaughtCrash: no enclosing handler, the EOFError
    propagates out of the program. -/
inductive EofOutcome
  | cleanGoodbye
  | caughtContinue
  | uncaughtCrash
deriving DecidableEq

/-- Both input calls of the advise.py loop body are inside the try block
    whose except EOFError branch (lines 186-188) prints the goodbye
    message and breaks. -/
def adviseEof (_ : AdvisePrompt) : EofOutcome := .cleanGoodbye

end Advise

namespace Advisor

/-- Pydantic model BusinessAdvice of nigerian_advisor.py. -/
structure BusinessAdvice where
  relevance_score : ℚ
  advice_type : AdviceType
  advice_title : String
  advice : String
deriving DecidableEq

/-- nigerian_advisor.py line 68. -/
def advisor_full_query (system_prompt user_query : String) : String :=
  system_prompt ++ "\n\nUSER QUERY: " ++ user_query

/-- Fallback object of nigerian_advisor.py get_nigerian_advice
    (lines 88-93). -/
def advisorFallback : BusinessAdvice :=
  { relevance_score := 0
    advice_type := .IRRELEVANT
    advice_title := "System Error: API Failure"
    advice := "The advisory service is currently unavailable due to a connection or API error. Please check your AWS configuration or model access." }

/-- nigerian_advisor.py get_nigerian_advice, same try/except shape as the
    advise.py variant. -/
def get_nigerian_advice (system_prompt user_query : String)
    (completion : String → Except String BusinessAdvice) : BusinessAdvice :=
  match completion (advisor_full_query system_prompt user_query) with
  | .ok advice_object => advice_object
  | .error _ => advisorFallback

/-- nigerian_advisor.py line 102. -/
def GREETINGS : List String :=
  ["hi", "hello", "hey", "good morning", "good afternoon", "good evening"]

/-- nigerian_advisor.py main loop phase 1 (lines 117-132), identical
    logic to advise.py. -/
def advisorPhase1 (raw : String) : Advise.Phase1Action :=
  let user_query := strTrim raw
  if (["quit", "exit", "q"] : List String).contains (strLower user_query) then .exitLoop
  else if user_query == "" then .askAgain
  else if GREETINGS.contains (strLower user_query) then .greetReply
  else .callClient user_query

/-- nigerian_advisor.py continuation prompt (lines 150-161). -/
def advisorCont (raw : String) : Advise.ContAction :=
  let next_input := strTrim raw
  if next_input == "" then .askAgain
  else if (["no", "n", "quit", "exit", "q"] : List String).contains (strLower next_input) then .exitLoop
  else .nextQuery next_input

/-- Both input calls of the nigerian_advisor.py loop body are inside the
    try whose except EOFError branch (lines 163-166) prints the goodbye
    message and breaks. -/
def advisorEof (_ : Advise.AdvisePrompt) : Advise.EofOutcome := .cleanGoodbye

end Advisor

namespace Chatbot

/-- irrelevant/chatbot.py main block (lines 95-112): a single-shot
    script with no greeting short-circuit.  It reads one query; an input
    that strips to empty prints an exit message, any other input is sent
    straight to get_nigerian_advice.  Returns whether the completion
    client is invoked. -/
def chatbotCallsClient (user_query : String) : Bool :=
  !(strTrim user_query == "")

end Chatbot

namespace Analyst

/-- Pydantic model BusinessAnalysisReport of analyst.py. -/
structure BusinessAnalysisReport where
  profitability_analysis : String
  growth_and_future_projection : String
  business_efficiency_analysis : String
  estimated_business_valuation : String
  tax_compliance_overview : String
  loan_eligibility_assessment : String
  actionable_advice : List String
deriving DecidableEq

/-- The user_data dict assembled by the analyst.py main loop
    (lines 181-187). -/
structure AnalystPayload where
  industry : String
  revenue : ℚ
  total_costs : ℚ
  bank_balance : ℚ
  net_profit : ℚ
deriving DecidableEq

/-- analyst.py lines 87-96: the data_string f-string (an indented
    triple-quoted literal; the leading spaces of each line are part of
    the composed text). -/
def analyst_data_string (p : AnalystPayload) : String :=
  "\n        --- USER FINANCIAL DATA (1 Month) ---\n        Industry: "
    ++ p.industry
    ++ "\n        Monthly Revenue: " ++ formatComma2 p.revenue
    ++ " NGN\n        Total Monthly Costs: " ++ formatComma2 p.total_costs
    ++ " NGN\n        Current Bank Account Balance: " ++ formatComma2 p.bank_balance
    ++ " NGN\n        ---\n        Calculated Net Profit/Loss: " ++ formatComma2 p.net_profit
    ++ " NGN\n        ---\n        "

/-- analyst.py line 99. -/
def analyst_full_query (system_prompt : String) (p : AnalystPayload) : String :=
  system_prompt ++ "\n\nAnalyze the following data:\n" ++ analyst_data_string p

/-- Fallback object of get_business_analysis (analyst.py lines 118-126). -/
def analystFallback : BusinessAnalysisReport :=
  { profitability_analysis := "Error: Could not generate analysis. API connection failed."
    growth_and_future_projection := "N/A"
    business_efficiency_analysis := "N/A"
    estimated_business_valuation := "N/A"
    tax_compliance_overview := "N/A. Check AWS credentials and model access for Llama 3 70B."
    loan_eligibility_assessment := "N/A"
    actionable_advice := ["API connection failed."] }

/-- analyst.py get_business_analysis: client construction, prompt
    composition and the completion call share one try block; any
    exception yields the fallback object. -/
def get_business_analysis (system_prompt : String) (p : AnalystPayload)
    (completion : String → Except String BusinessAnalysisReport) :
    BusinessAnalysisReport :=
  match completion (analyst_full_query system_prompt p) with
  | .ok report_object => report_object
  | .error _ => analystFallback

/-- Classification of the industry prompt (analyst.py lines 155-161). -/
inductive AnalystInputAction
  | exitLoop
  | retry
  | proceed (v : String)
deriving DecidableEq

def analystIndustryStep (raw : String) : AnalystInputAction :=
  let industry := strTrim raw
  if (["quit", "exit", "q"] : List String).contains (strLower industry) then .exitLoop
  else if industry == "" then .retry
  else .proceed industry

/-- The exit check of get_numeric_input (analyst.py lines 131-133):
    quit, exit or q raise SystemExit, which the main loop catches and
    turns into a clean break. -/
def analystNumericExitCheck (raw : String) : Bool :=
  (["quit", "exit", "q"] : List String).contains (strLower (strTrim raw))

/-- Classification of the continuation prompt (analyst.py
    lines 225-228).  Note the keyword list has no q. -/
inductive AnalystContAction
  | exitLoop
  | runAgain
deriving DecidableEq

def analystContStep (raw : String) : AnalystContAction :=
  if (["no", "n", "quit", "exit"] : List String).contains (strLower (strTrim raw)) then .exitLoop
  else .runAgain

/-- The stdin prompts of the analyst.py main loop. -/
inductive AnalystPrompt
  | industry
  | revenue
  | costs
  | balance
  | continuation
deriving DecidableEq

/-- analyst.py EOF behaviour: the data-collection prompts sit inside the
    try whose generic except Exception branch (lines 221-222) catches an
    EOFError and lets the loop fall through, but the continuation input
    on line 225 is outside the try, so an EOFError raised there
    propagates uncaught (and since stdin stays at EOF, every session
    that hits EOF eventually crashes at that prompt). -/
def analystEof : AnalystPrompt → Advise.EofOutcome
  | .continuation => .uncaughtCrash
  | _ => .caughtContinue

end Analyst

namespace Taxcalc

/-- The compliance_status Literal of nigerian_taxcalc.py
    (lines 62-67); constructors named after the literal strings
    COMPLIANT (Paid in Full), NON_COMPLIANT (Underpaid),
    OVERPAID (Refund Due), UNKNOWN (Check Data). -/
inductive ComplianceStatus
  | COMPLIANT_PaidInFull
  | NON_COMPLIANT_Underpaid
  | OVERPAID_RefundDue
  | UNKNOWN_CheckData
deriving DecidableEq

/-- Pydantic model TaxCalculationResult of nigerian_taxcalc.py. -/
structure TaxCalculationResult where
  taxable_profit : ℚ
  cit_rate_applied : ℚ
  cit_liability : ℚ
  education_tax_liability : ℚ
  total_profit_tax_due : ℚ
  profit_tax_paid_by_user : ℚ
  profit_tax_payment_status_amount : ℚ
  vat_output_collected : ℚ
  vat_input_paid : ℚ
  vat_remittable_due : ℚ
  compliance_status : ComplianceStatus
  compliance_recommendation : String
  business_growth_advice : String
deriving DecidableEq

/-- nigerian_taxcalc.py get_fallback_response (lines 178-194); the
    second argument defaults to 0.0 in the source. -/
def get_fallback_response (recommendation : String) (profit_tax_paid : ℚ) :
    TaxCalculationResult :=
  { taxable_profit := 0
    cit_rate_applied := 0
    cit_liability := 0
    education_tax_liability := 0
    total_profit_tax_due := 0
    profit_tax_paid_by_user := profit_tax_paid
    profit_tax_payment_status_amount := 0
    vat_output_collected := 0
    vat_input_paid := 0
    vat_remittable_due := 0
    compliance_status := .UNKNOWN_CheckData
    compliance_recommendation := recommendation
    business_growth_advice := "N/A. Cannot provide business advice due to error." }

/-- One cell of the parsed spreadsheet.  text models str(cell), the form
    used for label matching; num models float(cell), the form read from
    the amount column.  Cells reaching float() in the claims are numeric,
    so num is total here. -/
structure Cell where
  text : String
  num : ℚ
deriving DecidableEq

def defCell : Cell := { text := "", num := 0 }

/-- The parsed DataFrame: column headers in declared order, and rows of
    cells aligned with the headers. -/
structure Table where
  headers : List String
  rows : List (List Cell)
deriving DecidableEq

def cellText (r : List Cell) (i : Nat) : String := (r.getD i defCell).text

def cellNum (r : List Cell) (i : Nat) : ℚ := (r.getD i defCell).num

/-- nigerian_taxcalc.py line 135. -/
def metric_col_names : List String :=
  ["metric", "item", "description", "particulars", "details"]

/-- nigerian_taxcalc.py line 136. -/
def amount_col_names : List String := ["amount", "value", "ngn", "total", "cost"]

/-- The per-header test any(name in str(col).lower() for name in names):
    some synonym occurs as a substring of the lowercased header. -/
def headerMatches (names : List String) (col : String) : Bool :=
  names.any (fun name => containsCI col name)

/-- next((col for col in df.columns if ...), None): the index of the
    first header, in declared order, matching the synonym set.  The
    source selects the column label itself and indexes the frame with
    it; with distinct headers that is the same column this index
    denotes. -/
def firstColIdx (names : List String) : List String → Option Nat
  | [] => none
  | h :: t =>
    if headerMatches names h then some 0 else (firstColIdx names t).map (· + 1)

def metricColIdx (t : Table) : Option Nat := firstColIdx metric_col_names t.headers

def amountColIdx (t : Table) : Option Nat := firstColIdx amount_col_names t.headers

/-- nigerian_taxcalc.py find_value (lines 145-150): iterate the keyword
    list in order; for the first keyword matched by any row, return the
    amount cell of the first matching row; with no match anywhere
    return 0.0.  The row filter df[col].str.contains(keyword,
    case=False) with iloc[0] is exactly first-row selection. -/
def find_value (rows : List (List Cell)) (mIdx aIdx : Nat) : List String → ℚ
  | [] => 0
  | keyword :: keywords =>
    match rows.find? (fun r => containsCI (cellText r mIdx) keyword) with
    | some r => cellNum r aIdx
    | none => find_value rows mIdx aIdx keywords

/-- The distinct raise sites of load_financial_data.  The source returns
    one failure tuple (None, None, 0.0, 0.0, 0.0) for every error and
    distinguishes the kinds only in the printed message; the error kind
    here records which raise fired. -/
inductive LoadError
  | columnsNotFound
  | requiredFieldMissing
deriving DecidableEq

def revenueKeywords : List String := ["total revenue", "revenue", "sales"]

def taxPaidKeywords : List String := ["profit tax paid", "cit paid", "tax paid"]

def outputVatKeywords : List String := ["output vat", "vat collected", "vat on sales"]

def inputVatKeywords : List String := ["input vat", "vat paid on inputs", "vat on purchases"]

/-- nigerian_taxcalc.py load_financial_data (lines 121-175) on an
    already-parsed table (file reading and the extension dispatch happen
    before this logic and are not needed by the claims).  A matched
    header always contains a nonempty synonym and is therefore nonempty,
    so the Python truthiness test on the two column labels is the same
    as the option test here.  On success the source also returns the
    DataFrame itself; the caller already holds the table, so the result
    carries the four resolved scalars
    (revenue, profit tax paid, output VAT, input VAT). -/
def load_financial_data (t : Table) : Except LoadError (ℚ × ℚ × ℚ × ℚ) :=
  match metricColIdx t, amountColIdx t with
  | some m, some a =>
    let total_revenue := find_value t.rows m a revenueKeywords
    if total_revenue == 0 then .error .requiredFieldMissing
    else
      .ok (total_revenue,
           find_value t.rows m a taxPaidKeywords,
           find_value t.rows m a outputVatKeywords,
           find_value t.rows m a inputVatKeywords)
  | _, _ => .error .columnsNotFound

/-- Deterministic stand-in for DataFrame.to_string(index=False): a pure
    function of the table contents (the exact pandas column padding is
    not reproduced; no claim depends on it). -/
def tableToString (t : Table) : String :=
  String.intercalate "\n"
    (String.intercalate " " t.headers :: t.rows.map (fun r => String.intercalate " " (r.map Cell.text)))

/-- os.environ.get with its fixed fallback; modelled at the default. -/
def AWS_REGION : String := "us-east-1"

/-- nigerian_taxcalc.py lines 227-242: the user_query f-string. -/
def taxcalc_user_query (business_size : String) (t : Table)
    (total_revenue profit_tax_paid output_vat input_vat : ℚ) : String :=
  "\n    Please calculate the tax liabilities, audit compliance, and provide business advice for a Nigerian company of "
    ++ singleQuote ++ business_size ++ singleQuote
    ++ " size using the following financial statement data (Amounts in NGN).\n\n    --- FINANCIAL DATA (RAW) ---\n    "
    ++ tableToString t
    ++ "\n    ---\n    \n    --- KEY EXTRACTED VALUES ---\n    Total Revenue: "
    ++ formatComma2 total_revenue
    ++ " NGN\n    Profit Tax Paid by User: " ++ formatComma2 profit_tax_paid
    ++ " NGN\n    Output VAT (VAT on Sales): " ++ formatComma2 output_vat
    ++ " NGN\n    Input VAT (VAT on Purchases): " ++ formatComma2 input_vat
    ++ " NGN\n    ---\n\n    Follow all the Nigerian tax rules and advisory instructions provided in the system prompt exactly and return ONLY the JSON object.\n    "

/-- nigerian_taxcalc.py calculate_tax_and_assess (lines 197-264).
    clientInit models the boto3/instructor construction try block;
    completion models the structured completion call, applied to the
    combined message content.  The boolean records whether the remote
    completion call was made.  Load failure and client-init failure both
    return fallbacks before any remote call; a completion failure
    returns the fallback carrying the extracted profit_tax_paid. -/
def calculate_tax_and_assess (system_prompt business_size : String) (t : Table)
    (clientInit : Except String Unit)
    (completion : String → Except String TaxCalculationResult) :
    TaxCalculationResult × Bool :=
  match load_financial_data t with
  | .error _ =>
    (get_fallback_response "Data loading failed. Check file path, existence, and column names." 0, false)
  | .ok (total_revenue, profit_tax_paid, output_vat, input_vat) =>
    match clientInit with
    | .error _ =>
      (get_fallback_response
        ("AWS setup or connectivity failed. Check credentials and Bedrock access in region " ++ AWS_REGION ++ ".") 0, false)
    | .ok _ =>
      let user_query :=
        taxcalc_user_query business_size t total_revenue profit_tax_paid output_vat input_vat
      match completion (system_prompt ++ "\n\n" ++ user_query) with
      | .ok result_object => (result_object, true)
      | .error _ =>
        (get_fallback_response
          "API request failed. Check model permissions and AWS access for Llama 3 70B."
          profit_tax_paid, true)

/-- Classification of the file-path prompt (nigerian_taxcalc.py
    lines 276-279). -/
inductive TaxcalcFileAction
  | exitLoop
  | proceed (filepath : String)
deriving DecidableEq

def taxcalcFileStep (raw : String) : TaxcalcFileAction :=
  let filepath := strTrim raw
  if (["exit", "quit", "q"] : List String).contains (strLower filepath) then .exitLoop
  else .proceed filepath

/-- Classification of the continuation prompt (nigerian_taxcalc.py
    lines 345-348).  Note the keyword list has no q. -/
inductive TaxcalcContAction
  | exitLoop
  | runAgain
deriving DecidableEq

def taxcalcContStep (raw : String) : TaxcalcContAction :=
  if (["no", "n", "quit", "exit"] : List String).contains (strLower (strTrim raw)) then .exitLoop
  else .runAgain

/-- The stdin prompts of the nigerian_taxcalc.py main loop. -/
inductive TaxcalcPrompt
  | filePath
  | sizePrompt
  | continuation
deriving DecidableEq

/-- The nigerian_taxcalc.py main loop (lines 272-348) wraps none of its
    input calls in a try block, so an EOFError at any prompt propagates
    out of the program uncaught. -/
def taxcalcEof (_ : TaxcalcPrompt) : Advise.EofOutcome := .uncaughtCrash

end Taxcalc

/- ------------------------------------------------------------------ -/
/- Helper lemmas                                                       -/
/- ------------------------------------------------------------------ -/

theorem firstColIdx_eq_some (names : List String) :
    ∀ (hs : List String) (i : Nat), i < hs.length →
      Taxcalc.headerMatches names (hs.getD i "") = true →
      (∀ k, k < i → Taxcalc.headerMatches names (hs.getD k "") = false) →
      Taxcalc.firstColIdx names hs = some i := by
  intro hs
  induction hs with
  | nil => intro i hi; exact absurd hi (by simp)
  | cons h t ih =>
    intro i hi hmatch hearlier
    cases i with
    | zero =>
      simp only [List.getD_cons_zero] at hmatch
      simp [Taxcalc.firstColIdx, hmatch]
    | succ j =>
      have h0 : Taxcalc.headerMatches names h = false := by
        have := hearlier 0 (Nat.succ_pos j)
        simpa using this
      have hj := ih j (Nat.lt_of_succ_lt_succ hi) (by simpa using hmatch)
        (fun k hk => by simpa using hearlier (k + 1) (Nat.succ_lt_succ hk))
      simp [Taxcalc.firstColIdx, h0, hj]

theorem firstColIdx_eq_none (names : List String) :
    ∀ hs : List String, (∀ c ∈ hs, Taxcalc.headerMatches names c = false) →
      Taxcalc.firstColIdx names hs = none := by
  intro hs
  induction hs with
  | nil => intro _; rfl
  | cons h t ih =>
    intro hall
    have h0 : Taxcalc.headerMatches names h = false := hall h (by simp)
    simp [Taxcalc.firstColIdx, h0, ih (fun c hc => hall c (by simp [hc]))]

theorem findRowNone {α : Type} (p : α → Bool) :
    ∀ l : List α, (∀ x ∈ l, p x = false) → l.find? p = none := by
  intro l
  induction l with
  | nil => intro _; rfl
  | cons a t ih =>
    intro hall
    have ha : p a = false := hall a (by simp)
    simp [List.find?, ha, ih (fun x hx => hall x (by simp [hx]))]

theorem findRowFirst {α : Type} (p : α → Bool) (r0 : α) (post : List α)
    (h0 : p r0 = true) :
    ∀ pre : List α, (∀ x ∈ pre, p x = false) →
      (pre ++ r0 :: post).find? p = some r0 := by
  intro pre
  induction pre with
  | nil => intro _; simp [List.find?, h0]
  | cons a t ih =>
    intro hall
    have ha : p a = false := hall a (by simp)
    rw [List.cons_append]
    simp [List.find?, ha, ih (fun x hx => hall x (by simp [hx]))]

theorem find_value_zero (rows : List (List Taxcalc.Cell)) (m a : Nat) :
    ∀ kws : List String,
      (∀ kw ∈ kws, ∀ r ∈ rows, containsCI (Taxcalc.cellText r m) kw = false) →
      Taxcalc.find_value rows m a kws = 0 := by
  intro kws
  induction kws with
  | nil => intro _; rfl
  | cons kw t ih =>
    intro hall
    have hnone : rows.find? (fun r => containsCI (Taxcalc.cellText r m) kw) = none :=
      findRowNone _ rows (fun r hr => hall kw (by simp) r hr)
    simp [Taxcalc.find_value, hnone, ih (fun k hk r hr => hall k (by simp [hk]) r hr)]

theorem find_value_first_hit (m a : Nat) (kw : String) (post : List String)
    (rpre rpost : List (List Taxcalc.Cell)) (r0 : List Taxcalc.Cell)
    (hpre0 : ∀ r ∈ rpre, containsCI (Taxcalc.cellText r m) kw = false)
    (hr0 : containsCI (Taxcalc.cellText r0 m) kw = true) :
    ∀ pre : List String,
      (∀ k ∈ pre, ∀ r ∈ rpre ++ r0 :: rpost, containsCI (Taxcalc.cellText r m) k = false) →
      Taxcalc.find_value (rpre ++ r0 :: rpost) m a (pre ++ kw :: post) =
        Taxcalc.cellNum r0 a := by
  intro pre
  induction pre with
  | nil =>
    intro _
    have hfind :=
      findRowFirst (fun r => containsCI (Taxcalc.cellText r m) kw) r0 rpost hr0 rpre hpre0
    simp [Taxcalc.find_value, hfind]
  | cons k t ih =>
    intro hall
    have hnone :
        (rpre ++ r0 :: rpost).find? (fun r => containsCI (Taxcalc.cellText r m) k) = none :=
      findRowNone _ _ (fun r hr => hall k (by simp) r hr)
    rw [List.cons_append]
    simp only [Taxcalc.find_value, hnone]
    exact ih (fun k2 hk2 r hr => hall k2 (by simp [hk2]) r hr)

theorem load_error_of_find_value_zero (t : Taxcalc.Table) (m a : Nat)
    (hm : Taxcalc.metricColIdx t = some m) (ha : Taxcalc.amountColIdx t = some a)
    (hz : Taxcalc.find_value t.rows m a Taxcalc.revenueKeywords = 0) :
    Taxcalc.load_financial_data t = .error .requiredFieldMissing := by
  simp [Taxcalc.load_financial_data, hm, ha, hz]

theorem calc_no_call_of_load_error (t : Taxcalc.Table) (err : Taxcalc.LoadError)
    (hload : Taxcalc.load_financial_data t = .error err)
    (sys bs : String) (init : Except String Unit)
    (compl : String → Except String Taxcalc.TaxCalculationResult) :
    Taxcalc.calculate_tax_and_assess sys bs t init compl =
      (Taxcalc.get_fallback_response
        "Data loading failed. Check file path, existence, and column names." 0, false) := by
  simp [Taxcalc.calculate_tax_and_assess, hload]

/- ------------------------------------------------------------------ -/
/- Claim theorems                                                      -/
/- ------------------------------------------------------------------ -/

/-- Claim C4: column resolution selects the first column, in declared
    order, whose header matches the label-column synonym set, and the
    first matching the amount-column synonym set (matching is the
    case-insensitive substring test of the source); if either set
    matches no column, load_financial_data fails with ColumnsNotFound
    instead of proceeding. -/
theorem C4_column_resolution :
    (∀ (t : Taxcalc.Table) (i : Nat), i < t.headers.length →
      Taxcalc.headerMatches Taxcalc.metric_col_names (t.headers.getD i "") = true →
      (∀ k, k < i → Taxcalc.headerMatches Taxcalc.metric_col_names (t.headers.getD k "") = false) →
      Taxcalc.metricColIdx t = some i) ∧
    (∀ (t : Taxcalc.Table) (i : Nat), i < t.headers.length →
      Taxcalc.headerMatches Taxcalc.amount_col_names (t.headers.getD i "") = true →
      (∀ k, k < i → Taxcalc.headerMatches Taxcalc.amount_col_names (t.headers.getD k "") = false) →
      Taxcalc.amountColIdx t = some i) ∧
    (∀ t : Taxcalc.Table,
      Taxcalc.metricColIdx t = none ∨ Taxcalc.amountColIdx t = none →
      Taxcalc.load_financial_data t = .error .columnsNotFound) := by
  refine ⟨fun t i hi hm he => firstColIdx_eq_some _ _ i hi hm he,
          fun t i hi hm he => firstColIdx_eq_some _ _ i hi hm he, fun t h => ?_⟩
  rcases h with h | h
  · simp [Taxcalc.load_financial_data, h]
  · cases hm : Taxcalc.metricColIdx t <;> simp [Taxcalc.load_financial_data, hm, h]

def T4 : Taxcalc.Table := { headers := ["Note", "Description of Item", "Value NGN"], rows := [] }

def T4bad : Taxcalc.Table := { headers := ["Alpha", "Beta"], rows := [] }

theorem C4_column_resolution_witness :
    Taxcalc.metricColIdx T4 = some 1 ∧ Taxcalc.amountColIdx T4 = some 2 ∧
    Taxcalc.load_financial_data T4bad = .error .columnsNotFound :=
  ⟨C4_column_resolution.1 T4 1 (by decide) (by decide) (by decide),
   C4_column_resolution.2.1 T4 2 (by decide) (by decide) (by decide),
   C4_column_resolution.2.2 T4bad (Or.inl (by decide))⟩

/-- Claim C5: find_value iterates the keyword list of a target quantity
    in priority order and returns the amount-column cell of the first
    row whose label-column cell contains the current keyword
    case-insensitively, so keyword order takes precedence over row
    order; when no keyword matches any row, the quantity resolves
    to 0.0. -/
theorem C5_find_value_priority :
    (∀ (rows : List (List Taxcalc.Cell)) (m a : Nat) (kws : List String),
      (∀ kw ∈ kws, ∀ r ∈ rows, containsCI (Taxcalc.cellText r m) kw = false) →
      Taxcalc.find_value rows m a kws = 0) ∧
    (∀ (m a : Nat) (pre : List String) (kw : String) (post : List String)
       (rpre rpost : List (List Taxcalc.Cell)) (r0 : List Taxcalc.Cell),
      (∀ k ∈ pre, ∀ r ∈ rpre ++ r0 :: rpost, containsCI (Taxcalc.cellText r m) k = false) →
      (∀ r ∈ rpre, containsCI (Taxcalc.cellText r m) kw = false) →
      containsCI (Taxcalc.cellText r0 m) kw = true →
      Taxcalc.find_value (rpre ++ r0 :: rpost) m a (pre ++ kw :: post) =
        Taxcalc.cellNum r0 a) :=
  ⟨fun rows m a kws h => find_value_zero rows m a kws h,
   fun m a pre kw post rpre rpost r0 hpre hrpre hr0 =>
     find_value_first_hit m a kw post rpre rpost r0 hrpre hr0 pre hpre⟩

def W5rowA : List Taxcalc.Cell :=
  [{ text := "Cost of Sales", num := 60000000 }, { text := "60000000", num := 60000000 }]

def W5rowB : List Taxcalc.Cell :=
  [{ text := "Revenue", num := 145000000 }, { text := "145000000", num := 145000000 }]

theorem C5_find_value_priority_witness :
    Taxcalc.find_value [W5rowA, W5rowB] 0 1 Taxcalc.outputVatKeywords = 0 ∧
    Taxcalc.find_value ([W5rowA] ++ W5rowB :: []) 0 1
      (["total revenue"] ++ "revenue" :: ["sales"]) = Taxcalc.cellNum W5rowB 1 :=
  ⟨C5_find_value_priority.1 [W5rowA, W5rowB] 0 1 Taxcalc.outputVatKeywords (by decide),
   C5_find_value_priority.2 0 1 ["total revenue"] "revenue" ["sales"] [W5rowA] [] W5rowB
     (by decide) (by decide) (by decide)⟩

/-- Claim C3: when no label-column cell matches any revenue keyword
    (total revenue, revenue, sales; case-insensitive), extraction fails
    with the RequiredFieldMissing error rather than succeeding with
    revenue zero, and calculate_tax_and_assess makes no remote
    completion call for that input. -/
theorem C3_missing_revenue_fails (t : Taxcalc.Table) (m a : Nat)
    (hm : Taxcalc.metricColIdx t = some m) (ha : Taxcalc.amountColIdx t = some a)
    (hno : ∀ r ∈ t.rows, ∀ kw ∈ Taxcalc.revenueKeywords,
      containsCI (Taxcalc.cellText r m) kw = false) :
    Taxcalc.load_financial_data t = .error .requiredFieldMissing ∧
    ∀ (sys bs : String) (init : Except String Unit)
      (compl : String → Except String Taxcalc.TaxCalculationResult),
      (Taxcalc.calculate_tax_and_assess sys bs t init compl).2 = false := by
  have hz : Taxcalc.find_value t.rows m a Taxcalc.revenueKeywords = 0 :=
    find_value_zero t.rows m a _ (fun kw hkw r hr => hno r hr kw hkw)
  have hload := load_error_of_find_value_zero t m a hm ha hz
  exact ⟨hload, fun sys bs init compl => by
    rw [calc_no_call_of_load_error t _ hload sys bs init compl]⟩

def T3 : Taxcalc.Table :=
  { headers := ["Metric", "Amount"]
    rows := [[{ text := "Operating Expenses", num := 35000000 },
              { text := "35000000", num := 35000000 }]] }

theorem C3_missing_revenue_fails_witness :
    Taxcalc.load_financial_data T3 = .error .requiredFieldMissing ∧
    (Taxcalc.calculate_tax_and_assess "S" "LARGE" T3 (.ok ())
      (fun _ => .error "remote failure")).2 = false := by
  have h := C3_missing_revenue_fails T3 0 1 (by decide) (by decide) (by decide)
  exact ⟨h.1, h.2 "S" "LARGE" (.ok ()) (fun _ => .error "remote failure")⟩

/-- Claim C10 (implicit): a revenue-labeled row whose resolved amount is
    0.0 makes load_financial_data fail exactly as a missing revenue row
    does, with the same RequiredFieldMissing error, because the check is
    on the resolved value being 0.0 and not on row presence; the input
    never reaches the completion client. -/
theorem C10_zero_revenue_indistinguishable (t : Taxcalc.Table) (m a : Nat)
    (hm : Taxcalc.metricColIdx t = some m) (ha : Taxcalc.amountColIdx t = some a)
    (hpresent : ∃ r ∈ t.rows, containsCI (Taxcalc.cellText r m) "revenue" = true)
    (hz : Taxcalc.find_value t.rows m a Taxcalc.revenueKeywords = 0) :
    Taxcalc.load_financial_data t = .error .requiredFieldMissing ∧
    ∀ (sys bs : String) (init : Except String Unit)
      (compl : String → Except String Taxcalc.TaxCalculationResult),
      (Taxcalc.calculate_tax_and_assess sys bs t init compl).2 = false := by
  have hload := load_error_of_find_value_zero t m a hm ha hz
  exact ⟨hload, fun sys bs init compl => by
    rw [calc_no_call_of_load_error t _ hload sys bs init compl]⟩

def T10 : Taxcalc.Table :=
  { headers := ["Metric", "Amount"]
    rows := [[{ text := "Revenue", num := 0 }, { text := "0", num := 0 }]] }

theorem C10_zero_revenue_indistinguishable_witness :
    Taxcalc.load_financial_data T10 = .error .requiredFieldMissing ∧
    (Taxcalc.calculate_tax_and_assess "S" "MEDIUM" T10 (.ok ())
      (fun _ => .error "remote failure")).2 = false := by
  have h := C10_zero_revenue_indistinguishable T10 0 1 (by decide) (by decide)
    (by decide) (by decide)
  exact ⟨h.1, h.2 "S" "MEDIUM" (.ok ()) (fun _ => .error "remote failure")⟩

/-- Claim C1: a failing completion call never propagates its exception;
    each completion function returns a fallback instance whose enum or
    status field is the designated error member (advice_type IRRELEVANT
    for the advisors, compliance_status UNKNOWN (Check Data) for the tax
    calculator) and whose explanatory text field is a non-empty reason
    string.  The universally quantified failing completion oracle covers
    every exception kind; totality of the Lean functions is the absence
    of propagation. -/
theorem C1_completion_failure_fallback :
    (∀ sys q e : String,
      (Advise.get_nigerian_advice sys q (fun _ => .error e)).advice_type = .IRRELEVANT ∧
      (Advise.get_nigerian_advice sys q (fun _ => .error e)).key_points_summary ≠ "") ∧
    (∀ sys q e : String,
      (Advisor.get_nigerian_advice sys q (fun _ => .error e)).advice_type = .IRRELEVANT ∧
      (Advisor.get_nigerian_advice sys q (fun _ => .error e)).advice ≠ "") ∧
    (∀ (sys : String) (p : Analyst.AnalystPayload) (e : String),
      (Analyst.get_business_analysis sys p (fun _ => .error e)).profitability_analysis ≠ "") ∧
    (∀ (sys bs : String) (t : Taxcalc.Table) (init : Except String Unit) (e : String),
      (Taxcalc.calculate_tax_and_assess sys bs t init (fun _ => .error e)).1.compliance_status =
        .UNKNOWN_CheckData ∧
      (Taxcalc.calculate_tax_and_assess sys bs t init (fun _ => .error e)).1.compliance_recommendation ≠ "") := by
  refine ⟨fun sys q e =>
            ⟨rfl, by show Advise.adviseFallback.key_points_summary ≠ ""; decide⟩,
          fun sys q e => ⟨rfl, by show Advisor.advisorFallback.advice ≠ ""; decide⟩,
          fun sys p e =>
            by show Analyst.analystFallback.profitability_analysis ≠ ""; decide,
          fun sys bs t init e => ?_⟩
  cases hl : Taxcalc.load_financial_data t with
  | error err =>
    have hcalc : Taxcalc.calculate_tax_and_assess sys bs t init (fun _ => .error e) =
        (Taxcalc.get_fallback_response
          "Data loading failed. Check file path, existence, and column names." 0, false) := by
      simp [Taxcalc.calculate_tax_and_assess, hl]
    rw [hcalc]
    exact ⟨rfl, by decide⟩
  | ok quad =>
    obtain ⟨r1, r2, r3, r4⟩ := quad
    cases init with
    | error ie =>
      have hcalc : Taxcalc.calculate_tax_and_assess sys bs t (.error ie) (fun _ => .error e) =
          (Taxcalc.get_fallback_response
            ("AWS setup or connectivity failed. Check credentials and Bedrock access in region "
              ++ Taxcalc.AWS_REGION ++ ".") 0, false) := by
        simp [Taxcalc.calculate_tax_and_assess, hl]
      rw [hcalc]
      exact ⟨rfl, by decide⟩
    | ok u =>
      cases u
      have hcalc : Taxcalc.calculate_tax_and_assess sys bs t (.ok ()) (fun _ => .error e) =
          (Taxcalc.get_fallback_response
            "API request failed. Check model permissions and AWS access for Llama 3 70B." r2,
           true) := by
        simp [Taxcalc.calculate_tax_and_assess, hl]
      rw [hcalc]
      refine ⟨rfl, ?_⟩
      show ("API request failed. Check model permissions and AWS access for Llama 3 70B." : String) ≠ ""
      decide

/-- Counterexample to claim C2 as stated: the fallback of the business
    analyst has a non-empty list field (actionable_advice is the
    one-element list with the failure message), and the tax-calculation
    fallback invoked with a non-zero paid amount, as the API-failure
    branch does, has a non-zero numeric field. -/
theorem C2_counterexample :
    Analyst.analystFallback.actionable_advice = ["API connection failed."] ∧
    Analyst.analystFallback.actionable_advice ≠ ([] : List String) ∧
    (Taxcalc.get_fallback_response "API request failed." 5).profit_tax_paid_by_user = 5 ∧
    (Taxcalc.get_fallback_response "API request failed." 5).profit_tax_paid_by_user ≠ 0 :=
  ⟨rfl, by decide, rfl, by decide⟩

/-- Claim C2 as amended: the fallback constructors deterministically
    build instances whose free-text fields carry the reason, a fixed
    error message, or N/A; numeric fields are 0.0 except the
    tax-calculation fallback field profit_tax_paid_by_user, which equals
    the supplied paid amount (0.0 at its default); enum fields take the
    designated unknown/irrelevant member; list fields are empty except
    the analyst fallback field actionable_advice, which is the
    one-element list carrying the failure message. -/
theorem C2_fallback_synthesis :
    (∀ (r : String) (ptp : ℚ),
      (Taxcalc.get_fallback_response r ptp).taxable_profit = 0 ∧
      (Taxcalc.get_fallback_response r ptp).cit_rate_applied = 0 ∧
      (Taxcalc.get_fallback_response r ptp).cit_liability = 0 ∧
      (Taxcalc.get_fallback_response r ptp).education_tax_liability = 0 ∧
      (Taxcalc.get_fallback_response r ptp).total_profit_tax_due = 0 ∧
      (Taxcalc.get_fallback_response r ptp).profit_tax_paid_by_user = ptp ∧
      (Taxcalc.get_fallback_response r ptp).profit_tax_payment_status_amount = 0 ∧
      (Taxcalc.get_fallback_response r ptp).vat_output_collected = 0 ∧
      (Taxcalc.get_fallback_response r ptp).vat_input_paid = 0 ∧
      (Taxcalc.get_fallback_response r ptp).vat_remittable_due = 0 ∧
      (Taxcalc.get_fallback_response r ptp).compliance_status = .UNKNOWN_CheckData ∧
      (Taxcalc.get_fallback_response r ptp).compliance_recommendation = r ∧
      (Taxcalc.get_fallback_response r ptp).business_growth_advice =
        "N/A. Cannot provide business advice due to error.") ∧
    (Advise.adviseFallback.relevance_score = 0 ∧
     Advise.adviseFallback.advice_type = .IRRELEVANT ∧
     Advise.adviseFallback.actionable_steps = [] ∧
     Advise.adviseFallback.potential_risks_or_considerations = "N/A" ∧
     Advise.adviseFallback.key_points_summary ≠ "" ∧
     Advise.adviseFallback.detailed_explanation ≠ "") ∧
    (Advisor.advisorFallback.relevance_score = 0 ∧
     Advisor.advisorFallback.advice_type = .IRRELEVANT ∧
     Advisor.advisorFallback.advice ≠ "") ∧
    (Analyst.analystFallback.actionable_advice = ["API connection failed."] ∧
     Analyst.analystFallback.profitability_analysis ≠ "" ∧
     Analyst.analystFallback.growth_and_future_projection = "N/A" ∧
     Analyst.analystFallback.business_efficiency_analysis = "N/A" ∧
     Analyst.analystFallback.estimated_business_valuation = "N/A" ∧
     Analyst.analystFallback.loan_eligibility_assessment = "N/A" ∧
     Analyst.analystFallback.tax_compliance_overview ≠ "") :=
  ⟨fun r ptp =>
    ⟨rfl, rfl, rfl, rfl, rfl, rfl, rfl, rfl, rfl, rfl, rfl, rfl, rfl⟩,
   ⟨rfl, rfl, rfl, rfl, by decide, by decide⟩,
   ⟨rfl, rfl, by decide⟩,
   ⟨rfl, by decide, rfl, rfl, rfl, rfl, by decide⟩⟩

theorem greeting_member_cases (s : String)
    (h : Advise.GREETINGS.contains s = true) :
    s = "hi" ∨ s = "hello" ∨ s = "hey" ∨ s = "good morning" ∨
    s = "good afternoon" ∨ s = "good evening" := by
  have hmem : s ∈ Advise.GREETINGS := by simpa using h
  simpa [Advise.GREETINGS] using hmem

theorem greeting_trim_ne_empty (raw : String)
    (h : Advise.GREETINGS.contains (strLower (strTrim raw)) = true) :
    (strTrim raw == "") = false := by
  cases he : (strTrim raw == "") with
  | false => rfl
  | true =>
    exfalso
    have he2 : strTrim raw = "" := eq_of_beq he
    rw [he2] at h
    exact absurd h (by decide)

/-- Counterexample to claim C6 as stated: the legacy single-shot chatbot
    script (irrelevant/chatbot.py, cited by the claim) has no greeting
    short-circuit, so the recognized greeting hi does trigger a call to
    the Completion Client there. -/
theorem C6_counterexample :
    Advise.GREETINGS.contains (strLower (strTrim "hi")) = true ∧
    Chatbot.chatbotCallsClient "hi" = true := by decide

/-- Claim C6 as amended: in the looping advisor tools (advise.py and
    nigerian_advisor.py) an input that, after stripping and lowercasing,
    equals a recognized greeting phrase is answered with the canned
    welcome reply and never reaches the Completion Client; the legacy
    single-shot chatbot script forwards any non-empty input, greetings
    included, to the client. -/
theorem C6_greeting_short_circuit (raw : String)
    (h : Advise.GREETINGS.contains (strLower (strTrim raw)) = true) :
    Advise.advisePhase1 raw = .greetReply ∧
    Advisor.advisorPhase1 raw = .greetReply := by
  have hne := greeting_trim_ne_empty raw h
  constructor
  · rcases greeting_member_cases _ h with h1 | h1 | h1 | h1 | h1 | h1 <;>
      simp [Advise.advisePhase1, h1, hne, Advise.GREETINGS]
  · rcases greeting_member_cases _ h with h1 | h1 | h1 | h1 | h1 | h1 <;>
      simp [Advisor.advisorPhase1, h1, hne, Advisor.GREETINGS]

theorem C6_greeting_short_circuit_witness :
    Advise.advisePhase1 "hello" = .greetReply ∧
    Advisor.advisorPhase1 "hello" = .greetReply :=
  C6_greeting_short_circuit "hello" (by decide)

/-- Counterexample to claim C7 as stated: typing no at the initial
    prompt of advise.py is not an exit; it is forwarded to the
    Completion Client as a query; and typing q at the continuation
    prompt of the tax calculator or the analyst does not terminate the
    loop. -/
theorem C7_counterexample :
    Advise.advisePhase1 "no" = .callClient "no" ∧
    Taxcalc.taxcalcContStep "q" = .runAgain ∧
    Analyst.analystContStep "q" = .runAgain := by decide

/-- Claim C7 as amended: the exit keyword sets differ by prompt.  At
    AwaitingInput the keywords quit, exit and q terminate (no is treated
    as an ordinary query or file path); at AwaitingContinuation the
    keywords no, n, quit and exit terminate, and q additionally
    terminates only in the advisor chat tools, not in the tax calculator
    or the analyst. -/
theorem C7_exit_keyword_sets :
    (Advise.advisePhase1 "quit" = .exitLoop ∧ Advise.advisePhase1 "exit" = .exitLoop ∧
     Advise.advisePhase1 "q" = .exitLoop ∧ Advise.advisePhase1 "no" = .callClient "no") ∧
    (Advise.adviseCont "no" = .exitLoop ∧ Advise.adviseCont "n" = .exitLoop ∧
     Advise.adviseCont "quit" = .exitLoop ∧ Advise.adviseCont "exit" = .exitLoop ∧
     Advise.adviseCont "q" = .exitLoop) ∧
    (Advisor.advisorPhase1 "quit" = .exitLoop ∧ Advisor.advisorPhase1 "exit" = .exitLoop ∧
     Advisor.advisorPhase1 "q" = .exitLoop ∧ Advisor.advisorPhase1 "no" = .callClient "no") ∧
    (Advisor.advisorCont "no" = .exitLoop ∧ Advisor.advisorCont "n" = .exitLoop ∧
     Advisor.advisorCont "quit" = .exitLoop ∧ Advisor.advisorCont "exit" = .exitLoop ∧
     Advisor.advisorCont "q" = .exitLoop) ∧
    (Taxcalc.taxcalcFileStep "quit" = .exitLoop ∧ Taxcalc.taxcalcFileStep "exit" = .exitLoop ∧
     Taxcalc.taxcalcFileStep "q" = .exitLoop ∧ Taxcalc.taxcalcFileStep "no" = .proceed "no") ∧
    (Taxcalc.taxcalcContStep "no" = .exitLoop ∧ Taxcalc.taxcalcContStep "n" = .exitLoop ∧
     Taxcalc.taxcalcContStep "quit" = .exitLoop ∧ Taxcalc.taxcalcContStep "exit" = .exitLoop ∧
     Taxcalc.taxcalcContStep "q" = .runAgain) ∧
    (Analyst.analystIndustryStep "quit" = .exitLoop ∧
     Analyst.analystIndustryStep "exit" = .exitLoop ∧
     Analyst.analystIndustryStep "q" = .exitLoop ∧
     Analyst.analystNumericExitCheck "quit" = true ∧
     Analyst.analystNumericExitCheck "exit" = true ∧
     Analyst.analystNumericExitCheck "q" = true ∧
     Analyst.analystContStep "no" = .exitLoop ∧ Analyst.analystContStep "n" = .exitLoop ∧
     Analyst.analystContStep "quit" = .exitLoop ∧ Analyst.analystContStep "exit" = .exitLoop ∧
     Analyst.analystContStep "q" = .runAgain) := by decide

/-- Counterexample to claim C8 as stated: end-of-file on stdin at any
    prompt of the tax calculator, and at the continuation prompt of the
    analyst, propagates as an uncaught EOFError instead of terminating
    cleanly with a goodbye message. -/
theorem C8_counterexample :
    Taxcalc.taxcalcEof .filePath = .uncaughtCrash ∧
    Analyst.analystEof .continuation = .uncaughtCrash := by decide

/-- Claim C8 as amended: the two advisor chat tools terminate cleanly
    with a goodbye message on EOF at either prompt; the tax calculator
    has no EOF handler, so EOF at any of its prompts crashes the
    process; the analyst catches EOF at the prompts inside its try block
    and falls through, but EOF at its continuation prompt, which sits
    outside the try, crashes the process. -/
theorem C8_eof_handling :
    (∀ p, Advise.adviseEof p = .cleanGoodbye) ∧
    (∀ p, Advisor.advisorEof p = .cleanGoodbye) ∧
    (∀ p, Taxcalc.taxcalcEof p = .uncaughtCrash) ∧
    (Analyst.analystEof .industry = .caughtContinue ∧
     Analyst.analystEof .revenue = .caughtContinue ∧
     Analyst.analystEof .costs = .caughtContinue ∧
     Analyst.analystEof .balance = .caughtContinue ∧
     Analyst.analystEof .continuation = .uncaughtCrash) :=
  ⟨fun _ => rfl, fun _ => rfl, fun _ => rfl, by decide⟩

/-- Claim C9: prompt composition is deterministic.  For identical policy
    text and identical request payload values, every composed text sent
    to the completion client (the full_query strings of the advisors and
    analyst and the user_query string of the tax calculator) is
    identical. -/
theorem C9_prompt_composition_deterministic :
    (∀ sys q1 q2 : String, q1 = q2 →
      Advise.advise_full_query sys q1 = Advise.advise_full_query sys q2) ∧
    (∀ sys q1 q2 : String, q1 = q2 →
      Advisor.advisor_full_query sys q1 = Advisor.advisor_full_query sys q2) ∧
    (∀ (sys : String) (p1 p2 : Analyst.AnalystPayload),
      p1.industry = p2.industry → p1.revenue = p2.revenue →
      p1.total_costs = p2.total_costs → p1.bank_balance = p2.bank_balance →
      p1.net_profit = p2.net_profit →
      Analyst.analyst_full_query sys p1 = Analyst.analyst_full_query sys p2) ∧
    (∀ (bs1 bs2 : String) (t1 t2 : Taxcalc.Table)
       (rev1 rev2 ptp1 ptp2 ov1 ov2 iv1 iv2 : ℚ),
      bs1 = bs2 → t1 = t2 → rev1 = rev2 → ptp1 = ptp2 → ov1 = ov2 → iv1 = iv2 →
      Taxcalc.taxcalc_user_query bs1 t1 rev1 ptp1 ov1 iv1 =
        Taxcalc.taxcalc_user_query bs2 t2 rev2 ptp2 ov2 iv2) := by
  refine ⟨fun sys q1 q2 h => by rw [h], fun sys q1 q2 h => by rw [h],
          fun sys p1 p2 h1 h2 h3 h4 h5 => ?_,
          fun bs1 bs2 t1 t2 rev1 rev2 ptp1 ptp2 ov1 ov2 iv1 iv2 e1 e2 e3 e4 e5 e6 => by
            rw [e1, e2, e3, e4, e5, e6]⟩
  obtain ⟨i1, r1, c1, b1, n1⟩ := p1
  obtain ⟨i2, r2, c2, b2, n2⟩ := p2
  simp only at h1 h2 h3 h4 h5
  subst h1 h2 h3 h4 h5
  rfl

theorem C9_prompt_composition_deterministic_witness :
    Advise.advise_full_query "POLICY" "Q" = Advise.advise_full_query "POLICY" "Q" ∧
    Advisor.advisor_full_query "POLICY" "Q" = Advisor.advisor_full_query "POLICY" "Q" ∧
    Analyst.analyst_full_query "POLICY"
        { industry := "Retail", revenue := 500000, total_costs := 200000,
          bank_balance := 100000, net_profit := 300000 } =
      Analyst.analyst_full_query "POLICY"
        { industry := "Retail", revenue := 500000, total_costs := 200000,
          bank_balance := 100000, net_profit := 300000 } ∧
    Taxcalc.taxcalc_user_query "LARGE" T10 145000000 0 10000000 4000000 =
      Taxcalc.taxcalc_user_query "LARGE" T10 145000000 0 10000000 4000000 :=
  ⟨C9_prompt_composition_deterministic.1 "POLICY" "Q" "Q" rfl,
   C9_prompt_composition_deterministic.2.1 "POLICY" "Q" "Q" rfl,
   C9_prompt_composition_deterministic.2.2.1 "POLICY" _ _ rfl rfl rfl rfl rfl,
   C9_prompt_composition_deterministic.2.2.2 "LARGE" "LARGE" T10 T10
     145000000 145000000 0 0 10000000 10000000 4000000 4000000 rfl rfl rfl rfl rfl rfl⟩
